import Mathlib

/-!
Verification development for the jira-confluence CLI's resilient API-call
core: error normalization, the Jira search response guard, the circuit
breaker, the backoff retrier, the creation fallback protocol, field
resolution, and Confluence page lookup.  Each definition is a shallow
embedding of the corresponding TypeScript function.
-/

set_option maxHeartbeats 1000000

namespace JC

/-- The closed error taxonomy from `lib/error.ts` (`ErrorCode`). -/
inductive ErrorCode where
  | CONFIG_ERROR
  | VALIDATION_ERROR
  | JIRA_API_ERROR
  | CONFLUENCE_API_ERROR
  | NETWORK_ERROR
  | CIRCUIT_BREAKER_OPEN
  | UNKNOWN_ERROR
deriving DecidableEq, Repr

/-- Shape of `error.response.data` for provider error payloads:
Jira carries `errorMessages` and `errors`; Confluence carries `message`
and `reason`. -/
structure RespData where
  errorMessages : Option (List String) := none
  errors : Option (List (String × String)) := none
  message : Option String := none
  reason : Option String := none
deriving DecidableEq, Repr

/-- Shape of `error.response` on an HTTP-error-like object. -/
structure RespInfo where
  status : Option Nat := none
  data : Option RespData := none
deriving DecidableEq, Repr

/-- An object that has a `message` property (so `isJiraErrorResponse` /
`isConfluenceErrorResponse` hold of it), with optional `response` and
top-level `status`.  `message` is `Option` because the property may be
present with value `undefined`. -/
structure ErrObj where
  message : Option String := none
  response : Option RespInfo := none
  status : Option Nat := none
deriving DecidableEq, Repr

mutual
/-- A JavaScript value as seen by the error normalizers: an `AppError`
instance, an object carrying a `message` property, some other object, or
a non-object primitive. -/
inductive JsValue where
  | appErr (e : AppError)
  | errObj (o : ErrObj)
  | otherObj (tag : String)
  | prim (tag : String)

/-- The `AppError` class from `lib/error.ts`: code, message, optional
statusCode, optional context entries, optional cause (the original raw
error). -/
inductive AppError where
  | mk (code : ErrorCode) (message : String) (statusCode : Option Nat)
       (context : List (String × String)) (cause : Option JsValue)
end

/-- Accessor for the `code` field of an `AppError`. -/
def AppError.code : AppError → ErrorCode
  | .mk c _ _ _ _ => c

/-- Accessor for the `message` field of an `AppError`. -/
def AppError.message : AppError → String
  | .mk _ m _ _ _ => m

/-- Accessor for the `statusCode` field of an `AppError`. -/
def AppError.statusCode : AppError → Option Nat
  | .mk _ _ s _ _ => s

/-- Accessor for the `context` field of an `AppError`. -/
def AppError.context : AppError → List (String × String)
  | .mk _ _ _ ctx _ => ctx

/-- Accessor for the `cause` field of an `AppError`. -/
def AppError.cause : AppError → Option JsValue
  | .mk _ _ _ _ c => c

/-- `AppError.jiraApi(message, statusCode?, cause?)`. -/
def AppError.jiraApi (message : String) (statusCode : Option Nat)
    (cause : Option JsValue) : AppError :=
  .mk .JIRA_API_ERROR message statusCode [] cause

/-- `AppError.confluenceApi(message, statusCode?, cause?)`. -/
def AppError.confluenceApi (message : String) (statusCode : Option Nat)
    (cause : Option JsValue) : AppError :=
  .mk .CONFLUENCE_API_ERROR message statusCode [] cause

/-- `AppError.unknown(message, cause?)`. -/
def AppError.unknown (message : String) (cause : Option JsValue) : AppError :=
  .mk .UNKNOWN_ERROR message none [] cause

/-- `AppError.circuitBreakerOpen(service)`. -/
def AppError.circuitBreakerOpen (service : String) : AppError :=
  .mk .CIRCUIT_BREAKER_OPEN
    ("Circuit breaker is open for " ++ service ++ ". Service is temporarily unavailable.")
    none [("service", service)] none

/-- `isJiraErrorResponse(error)`: the value is a non-null object with a
`message` property.  Both plain HTTP-error-like objects and `AppError`
instances satisfy this. -/
def isJiraErrorResponse : JsValue → Bool
  | .appErr _ => true
  | .errObj _ => true
  | .otherObj _ => false
  | .prim _ => false

/-- `isConfluenceErrorResponse(error)`: same duck-typed shape test. -/
def isConfluenceErrorResponse : JsValue → Bool
  | .appErr _ => true
  | .errObj _ => true
  | .otherObj _ => false
  | .prim _ => false

/-- `error.response?.status ?? error.status` for an HTTP-error-like
object (shared by `getJiraErrorStatus` and `getConfluenceErrorStatus`). -/
def errObjStatus (o : ErrObj) : Option Nat :=
  match o.response with
  | some r =>
    match r.status with
    | some s => some s
    | none => o.status
  | none => o.status

/-- The message list built by `normalizeJiraError`: the contents of
`errorMessages` (when non-empty, per the truthiness guard) followed by
one `"field: message"` entry per `errors` record entry. -/
def jiraErrorMessageList (responseData : Option RespData) : List String :=
  (match responseData with
   | some d =>
     match d.errorMessages with
     | some l => if 0 < l.length then l else []
     | none => []
   | none => []) ++
  (match responseData with
   | some d =>
     match d.errors with
     | some ps => ps.map (fun p => p.1 ++ ": " ++ p.2)
     | none => []
   | none => [])

/-- `normalizeJiraError(error)` from the Jira client: AppError passes
through; non-HTTP-like values become `UNKNOWN_ERROR`; otherwise a
`JIRA_API_ERROR` is built from the extracted status and messages. -/
def normalizeJiraError (error : JsValue) : AppError :=
  match error with
  | .appErr e => e
  | .errObj o =>
    let status := errObjStatus o
    let responseData := o.response.bind RespInfo.data
    let messages := jiraErrorMessageList responseData
    let message :=
      if 0 < messages.length then String.intercalate "; " messages
      else match o.message with
        | some m => m
        | none => "Jira API error"
    AppError.jiraApi message status (some error)
  | .otherObj t => AppError.unknown "Unknown Jira error" (some (.otherObj t))
  | .prim t => AppError.unknown "Unknown Jira error" (some (.prim t))

/-- `normalizeConfluenceError(error)` from the Confluence client:
AppError passes through; non-HTTP-like values become `UNKNOWN_ERROR`;
otherwise a `CONFLUENCE_API_ERROR` with message
`data.message ?? data.reason ?? error.message ?? 'Confluence API error'`. -/
def normalizeConfluenceError (error : JsValue) : AppError :=
  match error with
  | .appErr e => e
  | .errObj o =>
    let status := errObjStatus o
    let responseData := o.response.bind RespInfo.data
    let message :=
      match responseData.bind RespData.message with
      | some m => m
      | none =>
        match responseData.bind RespData.reason with
        | some r => r
        | none =>
          match o.message with
          | some m => m
          | none => "Confluence API error"
    AppError.confluenceApi message status (some error)
  | .otherObj t => AppError.unknown "Unknown Confluence error" (some (.otherObj t))
  | .prim t => AppError.unknown "Unknown Confluence error" (some (.prim t))

/-- The raw value resolved by the Jira search SDK call: either a string
body or an already-parsed search result. -/
inductive SearchResp (α : Type) where
  | str (s : String)
  | parsed (r : α)

/-- JavaScript whitespace as stripped by `String.prototype.trim`
(space, tab, and line terminators). -/
def isJsWhitespace (c : Char) : Bool :=
  c = ' ' || c = '\t' || c = '\n' || c = '\r' || c = '\x0b' || c = '\x0c'

/-- Drop leading JS whitespace from a character list. -/
def jsDropWhitespace : List Char → List Char
  | [] => []
  | c :: rest => if isJsWhitespace c then jsDropWhitespace rest else c :: rest

/-- `s.trim()`: strip JS whitespace from both ends. -/
def jsTrim (s : String) : String :=
  ⟨(jsDropWhitespace (jsDropWhitespace s.data).reverse).reverse⟩

/-- `s.startsWith(pre)`. -/
def jsStartsWith (s pre : String) : Bool :=
  pre.data.isPrefixOf s.data

/-- The string-response handling inside `JiraClient.search`: a string
whose trimmed text starts with `<` fails with a 401 `JIRA_API_ERROR`
before any JSON parse; other strings are JSON-parsed, a parse failure
becoming a descriptive `JIRA_API_ERROR` carrying the parse error as
cause. -/
def processSearchResponse {α : Type} (result : SearchResp α)
    (parseJson : String → Except JsValue α) : Except AppError α :=
  match result with
  | .str s =>
    if jsStartsWith (jsTrim s) "<" then
      .error (AppError.jiraApi
        "Jira search returned HTML (likely a login page). Verify authentication credentials."
        (some 401) none)
    else
      match parseJson s with
      | .ok r => .ok r
      | .error parseError =>
        .error (AppError.jiraApi "Unexpected Jira search response format" none (some parseError))
  | .parsed r => .ok r

/-- `CircuitBreakerState`: `'closed' | 'open' | 'half-open'`. -/
inductive CBState where
  | closed
  | open_
  | halfOpen
deriving DecidableEq, Repr

/-- The per-service `CircuitState` record. -/
structure CircuitState where
  state : CBState
  failureCount : Nat
  lastFailureTime : Int
  halfOpenAttempts : Nat
deriving DecidableEq, Repr

/-- A freshly created circuit (`getCircuit` on first use). -/
def initialCircuit : CircuitState :=
  { state := .closed, failureCount := 0, lastFailureTime := 0, halfOpenAttempts := 0 }

/-- The options destructured by `withCircuitBreaker`, with their source
defaults; `shouldTrip` is over an abstract error type `ε`.  The
`onStateChange` observability hook carries no semantics and is omitted. -/
structure CBOptions (ε : Type) where
  failureThreshold : Nat := 5
  resetTimeoutMs : Int := 30000
  halfOpenMaxAttempts : Nat := 1
  shouldTrip : ε → Bool := fun _ => true

/-- `transitionTo(circuit, newState)`: no-op when already in `newState`;
entering `closed` resets `failureCount` and `halfOpenAttempts`; entering
`half-open` resets `halfOpenAttempts`. -/
def transitionTo (circuit : CircuitState) (newState : CBState) : CircuitState :=
  if circuit.state = newState then circuit
  else
    let c := { circuit with state := newState }
    match newState with
    | .closed => { c with failureCount := 0, halfOpenAttempts := 0 }
    | .halfOpen => { c with halfOpenAttempts := 0 }
    | .open_ => c

/-- Whether the pre-invocation phase lets the call proceed to `fn` or
rejects it with `CIRCUIT_BREAKER_OPEN`. -/
inductive EnterResult where
  | proceed
  | rejectOpen
deriving DecidableEq, Repr

/-- The half-open gating in `withCircuitBreaker` after the open-state
check: reject when `halfOpenAttempts >= halfOpenMaxAttempts`, otherwise
count the half-open trial and proceed. -/
def cbEnterHalfOpenGate {ε : Type} (o : CBOptions ε) (circuit : CircuitState) :
    CircuitState × EnterResult :=
  if circuit.state = .halfOpen ∧ o.halfOpenMaxAttempts ≤ circuit.halfOpenAttempts then
    (circuit, .rejectOpen)
  else if circuit.state = .halfOpen then
    ({ circuit with halfOpenAttempts := circuit.halfOpenAttempts + 1 }, .proceed)
  else
    (circuit, .proceed)

/-- The pre-invocation phase of `withCircuitBreaker` (everything before
`fn` is awaited): the open-state timeout check followed by the half-open
gating.  `now` is the `Date.now()` sample taken on entry. -/
def cbEnter {ε : Type} (o : CBOptions ε) (circuit : CircuitState) (now : Int) :
    CircuitState × EnterResult :=
  if circuit.state = .open_ then
    if o.resetTimeoutMs ≤ now - circuit.lastFailureTime then
      cbEnterHalfOpenGate o (transitionTo circuit .halfOpen)
    else
      (circuit, .rejectOpen)
  else
    cbEnterHalfOpenGate o circuit

/-- The post-invocation phase of `withCircuitBreaker`: on success a
half-open circuit closes and a closed circuit defensively resets its
failure count; on failure a non-tripping error propagates untouched,
while a tripping error bumps `failureCount`, records `now` as the last
failure time, and opens the circuit from half-open or at the threshold. -/
def cbSettle {ε α : Type} (o : CBOptions ε) (circuit : CircuitState) (now : Int)
    (outcome : Except ε α) : CircuitState × Except ε α :=
  match outcome with
  | .ok v =>
    let c :=
      if circuit.state = .halfOpen then transitionTo circuit .closed
      else if circuit.state = .closed then { circuit with failureCount := 0 }
      else circuit
    (c, .ok v)
  | .error e =>
    if o.shouldTrip e = false then (circuit, .error e)
    else
      let c := { circuit with failureCount := circuit.failureCount + 1, lastFailureTime := now }
      let c2 :=
        if c.state = .halfOpen then transitionTo c .open_
        else if o.failureThreshold ≤ c.failureCount then transitionTo c .open_
        else c
      (c2, .error e)

/-- The observable result of one `withCircuitBreaker` call: the wrapped
function's value, the wrapped function's re-raised error, or the
`CIRCUIT_BREAKER_OPEN` `AppError` thrown without invoking `fn`. -/
inductive CBOutcome (ε α : Type) where
  | ok (v : α)
  | err (e : ε)
  | breakerOpen (e : AppError)

/-- One call to `withCircuitBreaker(serviceName, fn, options)` on the
given circuit at time `now`, where `outcome` is what `fn` would resolve
or reject with if invoked.  Returns the circuit afterwards, the call's
result, and whether `fn` was invoked. -/
def withCircuitBreaker {ε α : Type} (serviceName : String) (o : CBOptions ε)
    (circuit : CircuitState) (now : Int) (outcome : Except ε α) :
    CircuitState × CBOutcome ε α × Bool :=
  match cbEnter o circuit now with
  | (c1, .rejectOpen) => (c1, .breakerOpen (AppError.circuitBreakerOpen serviceName), false)
  | (c1, .proceed) =>
    match cbSettle o c1 now outcome with
    | (c2, .ok v) => (c2, .ok v, true)
    | (c2, .error e) => (c2, .err e, true)

/-- A sequence of `withCircuitBreaker` calls against one circuit, each
given as a `(now, fn outcome)` pair; returns the final circuit. -/
def cbRun {ε α : Type} (serviceName : String) (o : CBOptions ε)
    (circuit : CircuitState) (calls : List (Int × Except ε α)) : CircuitState :=
  calls.foldl (fun c call => (withCircuitBreaker serviceName o c call.1 call.2).1) circuit

/-- The `withRetry` loop body.  `fn attempt` is what the operation
resolves or rejects with on the invocation numbered `attempt` (1-based);
`fuel = maxAttempts - attempt + 1` counts the loop iterations left, so
`fuel = 0` is the loop guard `attempt <= maxAttempts` failing and the
inner `fuel = 0` test is the `attempt >= maxAttempts` break.  Returns
the loop's result (`.error none` models `throw lastError` with
`lastError` still `undefined`) and the number of invocations made. -/
def retryGo {ε α : Type} (fn : Nat → Except ε α) (shouldRetry : ε → Nat → Bool) :
    Nat → Nat → Option ε → Except (Option ε) α × Nat
  | 0, _, lastError => (.error lastError, 0)
  | fuel + 1, attempt, _ =>
    match fn attempt with
    | .ok a => (.ok a, 1)
    | .error e =>
      if fuel = 0 then (.error (some e), 1)
      else if shouldRetry e attempt = false then (.error (some e), 1)
      else
        let r := retryGo fn shouldRetry fuel (attempt + 1) (some e)
        (r.1, r.2 + 1)

/-- `withRetry(fn, options)`: run the retry loop from attempt 1 with
`lastError` initially `undefined`. -/
def withRetry {ε α : Type} (fn : Nat → Except ε α) (shouldRetry : ε → Nat → Bool)
    (maxAttempts : Nat) : Except (Option ε) α × Nat :=
  retryGo fn shouldRetry maxAttempts 1 none

/-- `calculateBackoff(attempt, baseDelayMs, maxDelayMs)` over exact
rationals, with `rand` standing for the `Math.random()` draw in `[0,1)`:
`min(base * 2^(attempt-1) + rand * 0.3 * (base * 2^(attempt-1)), maxDelay)`.
The exponent is an integer as in `Math.pow`, so attempt 0 would use
`2^(-1)`. -/
def calculateBackoff (attempt : Nat) (baseDelayMs maxDelayMs rand : ℚ) : ℚ :=
  let exponentialDelay := baseDelayMs * (2 : ℚ) ^ ((attempt : ℤ) - 1)
  let jitter := rand * (3 / 10) * exponentialDelay
  min (exponentialDelay + jitter) maxDelayMs

/-- The delay computed by `calculateBackoff` before the `maxDelayMs`
cap: `exponentialDelay + jitter`. -/
def preCapDelay (attempt : Nat) (baseDelayMs rand : ℚ) : ℚ :=
  baseDelayMs * (2 : ℚ) ^ ((attempt : ℤ) - 1) +
    rand * (3 / 10) * (baseDelayMs * (2 : ℚ) ^ ((attempt : ℤ) - 1))

/-- Whether `pat` occurs as a contiguous sublist of the second list. -/
def listContainsSub (pat : List Char) : List Char → Bool
  | [] => pat.isEmpty
  | c :: rest => pat.isPrefixOf (c :: rest) || listContainsSub pat rest

/-- The test `/string value expected/i.test(message)`: case-insensitive
(ASCII) substring occurrence of `string value expected`. -/
def matchesStringValueExpected (message : String) : Bool :=
  listContainsSub "string value expected".data (message.data.map Char.toLower)

/-- The mutable epic-related locals of the creation fallback loop in
`handleJiraCreate`. -/
structure EpicFallbackState where
  epicFieldIndex : Nat
  epicFieldId : Option String
  epicAsString : Bool
  includeEpic : Bool
deriving DecidableEq, Repr

/-- `combinedMessages` in the epic branch: the current field's error
message (when present) followed by the general `errorMessages`. -/
def combinedEpicMessages (epicFieldError : Option String)
    (generalMessages : List String) : List String :=
  (match epicFieldError with
   | some m => [m]
   | none => []) ++ generalMessages

/-- The epic branch of the creation fallback's `catch` handler: given
the rejection's per-field errors and general messages, compute the epic
state for the next attempt and whether an adjustment was made.  A
`string value expected` message (when not already sending a string)
keeps the field and switches to a string payload; otherwise a truthy
field-specific error advances to the next candidate, dropping the epic
link once candidates are exhausted. -/
def adjustEpicOnRejection (candidates : List String) (epicStringFieldSet : List String)
    (fieldErrors : List (String × String)) (generalMessages : List String)
    (st : EpicFallbackState) : EpicFallbackState × Bool :=
  match st.includeEpic, st.epicFieldId with
  | true, some fid =>
    let epicFieldError := fieldErrors.lookup fid
    let combinedMessages := combinedEpicMessages epicFieldError generalMessages
    let requiresString := !st.epicAsString && combinedMessages.any matchesStringValueExpected
    if requiresString then
      ({ st with epicAsString := true }, true)
    else
      match epicFieldError with
      | some msg =>
        if msg.isEmpty then (st, false)
        else
          let nextIndex := st.epicFieldIndex + 1
          if h : nextIndex < candidates.length then
            let nextId := candidates.get ⟨nextIndex, h⟩
            ({ st with epicFieldIndex := nextIndex, epicFieldId := some nextId,
                       epicAsString := epicStringFieldSet.contains nextId }, true)
          else
            ({ st with includeEpic := false }, true)
      | none => (st, false)
  | _, _ => (st, false)

/-- How the epic value is serialized into the create payload: as a bare
string, or as an object with a single `key` property. -/
inductive EpicPayload where
  | str (key : String)
  | keyObj (key : String)
deriving DecidableEq, Repr

/-- The epic entry that an attempt of the creation fallback loop adds to
`fieldsPayload` (`none` when the epic link is omitted entirely). -/
def epicFieldEntry (st : EpicFallbackState) (epicKey : String) :
    Option (String × EpicPayload) :=
  match st.includeEpic, st.epicFieldId with
  | true, some fid =>
    some (fid, if st.epicAsString then .str epicKey else .keyObj epicKey)
  | _, _ => none

/-- A Jira field catalog entry as used by `FieldService` (only `id` and
`name` are consulted). -/
structure JiraField where
  id : String
  name : String
deriving DecidableEq, Repr

/-- A `FieldService` about to resolve one logical field name on a fresh
cache: the configured mapping entry for that name, the candidate list
and regex patterns for it, and the client (`none` when absent; otherwise
the outcome `listFields()` would produce, a failure being swallowed). -/
structure FieldServiceModel where
  fieldMapping : Option String
  candidates : List String
  patterns : List (String → Bool)
  client : Option (Except Unit (List JiraField))

/-- `getFields()` on an empty cache: no client yields an empty catalog
with no fetch; otherwise `listFields()` is called, a failure being
swallowed into an empty catalog.  The boolean records whether
`listFields` was called. -/
def svcGetFields (m : FieldServiceModel) : List JiraField × Bool :=
  match m.client with
  | none => ([], false)
  | some (.ok fs) => (fs, true)
  | some (.error _) => ([], true)

/-- `s.toLowerCase()` (ASCII). -/
def jsToLower (s : String) : String :=
  ⟨s.data.map Char.toLower⟩

/-- The candidate loop of `discoverFieldId`: first candidate for which
some field matches by case-insensitive name or id, returning that first
matching field's id. -/
def candidateSearch (fields : List JiraField) : List String → Option String
  | [] => none
  | c :: rest =>
    match fields.find? (fun f =>
        jsToLower f.name == jsToLower c || jsToLower f.id == jsToLower c) with
    | some f => some f.id
    | none => candidateSearch fields rest

/-- The pattern loop of `discoverFieldId`: first pattern matching some
field's name, returning that first matching field's id. -/
def patternSearch (fields : List JiraField) : List (String → Bool) → Option String
  | [] => none
  | p :: rest =>
    match fields.find? (fun f => p f.name) with
    | some f => some f.id
    | none => patternSearch fields rest

/-- `discoverFieldId`: fetch the catalog, give up on an empty catalog,
then candidate match, then pattern match.  The boolean records whether
`listFields` was called. -/
def discoverFieldId (m : FieldServiceModel) : Option String × Bool :=
  let r := svcGetFields m
  if r.1.isEmpty then (none, r.2)
  else
    match candidateSearch r.1 m.candidates with
    | some fid => (some fid, r.2)
    | none => (patternSearch r.1 m.patterns, r.2)

/-- `resolveFieldId(logicalName)`: a truthy configured mapping entry is
returned with no catalog fetch; otherwise (including the falsy empty
string) discovery runs. -/
def resolveFieldId (m : FieldServiceModel) : Option String × Bool :=
  match m.fieldMapping with
  | some configuredId =>
    if configuredId.isEmpty then discoverFieldId m
    else (some configuredId, false)
  | none => discoverFieldId m

/-- Modelled from the spec: with no configured mapping, "resolution
proceeds by case-insensitive exact candidate match against a field's
name or id, then by regex pattern match against field names, returning
the first match and undefined if none matches".  This spec-side
definition has no empty-catalog shortcut. -/
def resolveFieldIdSpec (fields : List JiraField) (candidates : List String)
    (patterns : List (String → Bool)) : Option String :=
  match candidateSearch fields candidates with
  | some fid => some fid
  | none => patternSearch fields patterns

/-- A Confluence page as far as `getPageByTitle` inspects it (it only
passes results through). -/
structure ConfluencePage where
  id : String
  title : String
deriving DecidableEq, Repr

/-- The result handling inside `ConfluenceClient.getPageByTitle`: an
empty `results` list yields `null`, otherwise `results[0]`. -/
def getPageByTitleResult (results : List ConfluencePage) : Option ConfluencePage :=
  if h : results.length = 0 then none
  else some (results.get ⟨0, Nat.pos_of_ne_zero h⟩)

/-- C9: the error normalizers return an AppError input unchanged (hence
they are idempotent), and for every input that does not look like an
HTTP error-response object they return an `UNKNOWN_ERROR` AppError
carrying the original input as `cause`. -/
theorem normalizers_passthrough_and_unknown (e : AppError) (u v w : JsValue)
    (hv : isJiraErrorResponse v = false) (hw : isConfluenceErrorResponse w = false) :
    normalizeJiraError (.appErr e) = e ∧
    normalizeConfluenceError (.appErr e) = e ∧
    normalizeJiraError (.appErr (normalizeJiraError u)) = normalizeJiraError u ∧
    normalizeConfluenceError (.appErr (normalizeConfluenceError u)) = normalizeConfluenceError u ∧
    (normalizeJiraError v).code = .UNKNOWN_ERROR ∧
    (normalizeJiraError v).cause = some v ∧
    (normalizeConfluenceError w).code = .UNKNOWN_ERROR ∧
    (normalizeConfluenceError w).cause = some w := by
  refine ⟨rfl, rfl, rfl, rfl, ?_, ?_, ?_, ?_⟩
  · cases v <;> simp_all [isJiraErrorResponse, normalizeJiraError, AppError.unknown, AppError.code]
  · cases v <;> simp_all [isJiraErrorResponse, normalizeJiraError, AppError.unknown, AppError.cause]
  · cases w <;>
      simp_all [isConfluenceErrorResponse, normalizeConfluenceError, AppError.unknown,
        AppError.code]
  · cases w <;>
      simp_all [isConfluenceErrorResponse, normalizeConfluenceError, AppError.unknown,
        AppError.cause]

/-- Witness for `normalizers_passthrough_and_unknown` at a concrete
AppError and concrete non-HTTP-like inputs. -/
theorem normalizers_passthrough_and_unknown_witness :
    normalizeJiraError (.appErr (AppError.unknown "x" none)) = AppError.unknown "x" none ∧
    normalizeConfluenceError (.appErr (AppError.unknown "x" none)) = AppError.unknown "x" none ∧
    normalizeJiraError (.appErr (normalizeJiraError (.errObj {}))) =
      normalizeJiraError (.errObj {}) ∧
    normalizeConfluenceError (.appErr (normalizeConfluenceError (.errObj {}))) =
      normalizeConfluenceError (.errObj {}) ∧
    (normalizeJiraError (.prim "42")).code = .UNKNOWN_ERROR ∧
    (normalizeJiraError (.prim "42")).cause = some (.prim "42") ∧
    (normalizeConfluenceError (.otherObj "timer")).code = .UNKNOWN_ERROR ∧
    (normalizeConfluenceError (.otherObj "timer")).cause = some (.otherObj "timer") :=
  normalizers_passthrough_and_unknown (AppError.unknown "x" none) (.errObj {})
    (.prim "42") (.otherObj "timer") rfl rfl

/-- C7: a Jira search string response whose trimmed text begins with `<`
fails with a `JIRA_API_ERROR` at status 401 independently of the JSON
parser (so no parse is attempted); any other string response is parsed,
a parse success being returned and a parse failure becoming a
`JIRA_API_ERROR` rather than a value. -/
theorem search_string_response_guard {α : Type} (s : String)
    (p p2 : String → Except JsValue α) (r : α) (pe : JsValue) :
    (jsStartsWith (jsTrim s) "<" = true →
      processSearchResponse (.str s) p = processSearchResponse (.str s) p2 ∧
      processSearchResponse (.str s) p =
        .error (AppError.jiraApi
          "Jira search returned HTML (likely a login page). Verify authentication credentials."
          (some 401) none) ∧
      ∃ err, processSearchResponse (.str s) p = .error err ∧
        err.code = .JIRA_API_ERROR ∧ err.statusCode = some 401) ∧
    (jsStartsWith (jsTrim s) "<" = false → p s = .ok r →
      processSearchResponse (.str s) p = .ok r) ∧
    (jsStartsWith (jsTrim s) "<" = false → p s = .error pe →
      ∃ err, processSearchResponse (.str s) p = .error err ∧
        err.code = .JIRA_API_ERROR ∧ err.cause = some pe) := by
  refine ⟨fun h => ?_, fun h hp => ?_, fun h hp => ?_⟩
  · refine ⟨?_, ?_, ?_⟩
    · simp [processSearchResponse, h]
    · simp [processSearchResponse, h]
    · exact ⟨AppError.jiraApi
        "Jira search returned HTML (likely a login page). Verify authentication credentials."
        (some 401) none, by simp [processSearchResponse, h], rfl, rfl⟩
  · simp [processSearchResponse, h, hp]
  · exact ⟨AppError.jiraApi "Unexpected Jira search response format" none (some pe),
      by simp [processSearchResponse, h, hp], rfl, rfl⟩

/-- Witness for `search_string_response_guard`: the literal HTML login
page string, a parseable response, and an unparseable response. -/
theorem search_string_response_guard_witness :
    (processSearchResponse (α := Nat) (.str "<html>login</html>")
        (fun _ => .error (.prim "SyntaxError")) =
      processSearchResponse (.str "<html>login</html>") (fun _ => .ok 0) ∧
      processSearchResponse (α := Nat) (.str "<html>login</html>")
        (fun _ => .error (.prim "SyntaxError")) =
        .error (AppError.jiraApi
          "Jira search returned HTML (likely a login page). Verify authentication credentials."
          (some 401) none) ∧
      ∃ err, processSearchResponse (α := Nat) (.str "<html>login</html>")
          (fun _ => .error (.prim "SyntaxError")) = .error err ∧
        err.code = .JIRA_API_ERROR ∧ err.statusCode = some 401) ∧
    processSearchResponse (α := Nat) (.str "[]") (fun _ => .ok 0) = .ok 0 ∧
    (∃ err, processSearchResponse (α := Nat) (.str "nonsense")
        (fun _ => .error (.prim "SyntaxError")) = .error err ∧
      err.code = .JIRA_API_ERROR ∧ err.cause = some (.prim "SyntaxError")) := by
  refine ⟨(search_string_response_guard "<html>login</html>"
      (fun _ => .error (.prim "SyntaxError")) (fun _ => .ok 0) 0 (.prim "SyntaxError")).1
      (by decide), ?_, ?_⟩
  · exact (search_string_response_guard "[]"
      (fun _ => .ok 0) (fun _ => .ok 0) 0 (.prim "SyntaxError")).2.1 (by decide) rfl
  · exact (search_string_response_guard "nonsense"
      (fun _ => .error (.prim "SyntaxError")) (fun _ => .ok 0) 0
      (.prim "SyntaxError")).2.2 (by decide) rfl

/-- C10: `getPageByTitle` maps an empty results list to `null` and a
non-empty one to its first entry. -/
theorem getPageByTitle_first_or_null (p : ConfluencePage) (rest : List ConfluencePage) :
    getPageByTitleResult [] = none ∧ getPageByTitleResult (p :: rest) = some p := by
  constructor
  · rfl
  · simp [getPageByTitleResult]

/-- The retry loop makes at most `fuel` invocations. -/
lemma retryGo_count_le {ε α : Type} (fn : Nat → Except ε α) (sr : ε → Nat → Bool) :
    ∀ (fuel attempt : Nat) (le : Option ε), (retryGo fn sr fuel attempt le).2 ≤ fuel := by
  intro fuel
  induction fuel with
  | zero => intro attempt le; simp [retryGo]
  | succ f ih =>
    intro attempt le
    simp only [retryGo]
    cases fn attempt with
    | ok a => simp
    | error e =>
      by_cases hf : f = 0
      · simp [hf]
      · by_cases hsr : sr e attempt = false
        · simp [hf, hsr]
        · simpa [hf, hsr] using ih (attempt + 1) (some e)

/-- With at least one iteration of fuel, the retry loop invokes the
operation at least once. -/
lemma retryGo_count_pos {ε α : Type} (fn : Nat → Except ε α) (sr : ε → Nat → Bool)
    (fuel attempt : Nat) (le : Option ε) (h : 1 ≤ fuel) :
    1 ≤ (retryGo fn sr fuel attempt le).2 := by
  obtain ⟨f, rfl⟩ : ∃ f, fuel = f + 1 := ⟨fuel - 1, by omega⟩
  simp only [retryGo]
  cases fn attempt with
  | ok a => simp
  | error e =>
    by_cases hf : f = 0
    · simp [hf]
    · by_cases hsr : sr e attempt = false
      · simp [hf, hsr]
      · simp [hf, hsr]

/-- If the operation rejects on every invocation, the retry loop
finally rejects with exactly the error of its last invocation. -/
lemma retryGo_always_error {ε α : Type} (fn : Nat → Except ε α) (sr : ε → Nat → Bool)
    (hall : ∀ i, ∃ e, fn i = .error e) :
    ∀ (fuel attempt : Nat) (le : Option ε), 1 ≤ fuel →
      ∃ e, (retryGo fn sr fuel attempt le).1 = .error (some e) ∧
        fn (attempt + (retryGo fn sr fuel attempt le).2 - 1) = .error e := by
  intro fuel
  induction fuel with
  | zero => omega
  | succ f ih =>
    intro attempt le _
    obtain ⟨e, he⟩ := hall attempt
    simp only [retryGo, he]
    by_cases hf : f = 0
    · exact ⟨e, by simp [hf], by simpa [hf] using he⟩
    · by_cases hsr : sr e attempt = false
      · exact ⟨e, by simp [hf, hsr], by simpa [hf, hsr] using he⟩
      · obtain ⟨e2, h1, h2⟩ := ih (attempt + 1) (some e) (by omega)
        refine ⟨e2, by simp [hf, hsr, h1], ?_⟩
        rw [if_neg hf, if_neg hsr]
        have harith : attempt + ((retryGo fn sr f (attempt + 1) (some e)).2 + 1) - 1 =
            attempt + 1 + (retryGo fn sr f (attempt + 1) (some e)).2 - 1 := by omega
        rw [harith]
        exact h2

/-- C2 counterexample: with `maxAttempts = 0` (a legal `RetryOptions`
value) the loop body never runs, so the operation is invoked zero times
— fewer than once — and `withRetry` rejects with the still-undefined
`lastError`, not with any rejection of the operation. -/
theorem withRetry_zero_attempts_counterexample :
    withRetry (fun _ => (Except.error 0 : Except Nat Nat)) (fun _ _ => true) 0 =
      (.error none, 0) ∧
    ¬ 1 ≤ (withRetry (fun _ => (Except.error 0 : Except Nat Nat)) (fun _ _ => true) 0).2 := by
  exact ⟨rfl, by decide⟩

/-- C2 (amended with `1 ≤ maxAttempts`): `withRetry` invokes the
operation at most `maxAttempts` times and at least once, and if the
operation rejects on every invocation the final rejection is exactly
the last invocation's rejection. -/
theorem withRetry_termination {ε α : Type} (fn : Nat → Except ε α) (sr : ε → Nat → Bool)
    (maxAttempts : Nat) (hmax : 1 ≤ maxAttempts) :
    1 ≤ (withRetry fn sr maxAttempts).2 ∧
    (withRetry fn sr maxAttempts).2 ≤ maxAttempts ∧
    ((∀ i, ∃ e, fn i = .error e) →
      ∃ e, (withRetry fn sr maxAttempts).1 = .error (some e) ∧
        fn (withRetry fn sr maxAttempts).2 = .error e) := by
  refine ⟨retryGo_count_pos fn sr maxAttempts 1 none hmax,
    retryGo_count_le fn sr maxAttempts 1 none, fun hall => ?_⟩
  obtain ⟨e, h1, h2⟩ := retryGo_always_error fn sr hall maxAttempts 1 none hmax
  have harith : 1 + (retryGo fn sr maxAttempts 1 none).2 - 1 =
      (retryGo fn sr maxAttempts 1 none).2 := by omega
  rw [harith] at h2
  exact ⟨e, h1, h2⟩

/-- Witness for `withRetry_termination`: an always-rejecting operation
with 3 attempts makes between 1 and 3 invocations and rejects with the
third invocation's error. -/
theorem withRetry_termination_witness :
    1 ≤ (withRetry (fun i => (Except.error i : Except Nat Nat)) (fun _ _ => true) 3).2 ∧
    (withRetry (fun i => (Except.error i : Except Nat Nat)) (fun _ _ => true) 3).2 ≤ 3 ∧
    (∃ e, (withRetry (fun i => (Except.error i : Except Nat Nat)) (fun _ _ => true) 3).1 =
        .error (some e) ∧
      (fun i => (Except.error i : Except Nat Nat))
        (withRetry (fun i => (Except.error i : Except Nat Nat)) (fun _ _ => true) 3).2 =
        .error e) := by
  have h := withRetry_termination (fun i => (Except.error i : Except Nat Nat))
    (fun _ _ => true) 3 (by decide)
  exact ⟨h.1, h.2.1, h.2.2 (fun i => ⟨i, rfl⟩)⟩

/-- Powers of two over the rationals are positive at any integer
exponent. -/
lemma two_zpow_pos (z : ℤ) : 0 < (2 : ℚ) ^ z :=
  zpow_pos (by norm_num) z

/-- C8: for attempt `N ≥ 1`, `baseDelayMs > 0`, and random draws in
`[0,1)` (so jitter values `(3/10)·r` cover `[0, 0.3)`), the computed
delay equals `min(base · 2^(N-1) · (1 + jitter), maxDelay)`; the
pre-cap delay for attempt `N` dominates the pre-cap delay for attempt
`N-1` regardless of the two draws; and every returned delay is at most
`maxDelayMs`. -/
theorem calculateBackoff_spec (N : ℕ) (base maxD r rp : ℚ)
    (hN : 1 ≤ N) (hb : 0 < base) (hr0 : 0 ≤ r) (hr1 : r < 1)
    (hp0 : 0 ≤ rp) (hp1 : rp < 1) :
    calculateBackoff N base maxD r =
      min (base * (2 : ℚ) ^ ((N : ℤ) - 1) * (1 + 3 / 10 * r)) maxD ∧
    0 ≤ 3 / 10 * r ∧ 3 / 10 * r < 3 / 10 ∧
    preCapDelay (N - 1) base rp ≤ preCapDelay N base r ∧
    calculateBackoff N base maxD r ≤ maxD := by
  refine ⟨?_, by positivity, by nlinarith, ?_, min_le_right _ _⟩
  · unfold calculateBackoff
    ring_nf
  · unfold preCapDelay
    have hcast : ((N - 1 : ℕ) : ℤ) - 1 = (N : ℤ) - 2 := by omega
    rw [hcast]
    have hsplit : (2 : ℚ) ^ ((N : ℤ) - 1) = (2 : ℚ) ^ ((N : ℤ) - 2) * 2 := by
      rw [show (N : ℤ) - 1 = ((N : ℤ) - 2) + 1 by ring]
      exact zpow_add_one₀ (by norm_num) _
    rw [hsplit]
    have hE := two_zpow_pos ((N : ℤ) - 2)
    nlinarith [mul_pos hb hE, mul_nonneg (mul_pos hb hE).le hr0,
      mul_nonneg (mul_pos hb hE).le hp0, mul_nonneg (mul_nonneg (mul_pos hb hE).le hp0) hr0]

/-- Witness for `calculateBackoff_spec` at attempt 3 with draws 1/2 and
1/4. -/
theorem calculateBackoff_spec_witness :
    calculateBackoff 3 1000 30000 (1 / 2) =
      min ((1000 : ℚ) * (2 : ℚ) ^ ((3 : ℤ) - 1) * (1 + 3 / 10 * (1 / 2))) 30000 ∧
    0 ≤ (3 : ℚ) / 10 * (1 / 2) ∧ (3 : ℚ) / 10 * (1 / 2) < 3 / 10 ∧
    preCapDelay (3 - 1) 1000 (1 / 4) ≤ preCapDelay 3 1000 (1 / 2) ∧
    calculateBackoff 3 1000 30000 (1 / 2) ≤ 30000 :=
  calculateBackoff_spec 3 1000 30000 (1 / 2) (1 / 4) (by norm_num) (by norm_num)
    (by norm_num) (by norm_num) (by norm_num) (by norm_num)

/-- C1: with `failureThreshold = 5` and `shouldTrip` true on every
error, a fresh circuit is still closed after 1–4 failing calls
(failure count 4 after the 4th), opens on the 5th, and a 6th call made
before `resetTimeoutMs` has elapsed since the 5th failure rejects with
the `CIRCUIT_BREAKER_OPEN` AppError without invoking the wrapped
function and without touching the circuit. -/
theorem circuit_opens_at_threshold {ε α : Type} (svc : String) (o : CBOptions ε)
    (e1 e2 e3 e4 e5 : ε) (t1 t2 t3 t4 t5 t6 : Int) (out6 : Except ε α)
    (hth : o.failureThreshold = 5)
    (htr1 : o.shouldTrip e1 = true) (htr2 : o.shouldTrip e2 = true)
    (htr3 : o.shouldTrip e3 = true) (htr4 : o.shouldTrip e4 = true)
    (htr5 : o.shouldTrip e5 = true)
    (hlt : t6 - t5 < o.resetTimeoutMs) :
    (cbRun svc o initialCircuit [(t1, (Except.error e1 : Except ε α))]).state = .closed ∧
    (cbRun svc o initialCircuit
      [(t1, (Except.error e1 : Except ε α)), (t2, .error e2)]).state = .closed ∧
    (cbRun svc o initialCircuit
      [(t1, (Except.error e1 : Except ε α)), (t2, .error e2), (t3, .error e3)]).state = .closed ∧
    (cbRun svc o initialCircuit
      [(t1, (Except.error e1 : Except ε α)), (t2, .error e2), (t3, .error e3),
        (t4, .error e4)]).state = .closed ∧
    (cbRun svc o initialCircuit
      [(t1, (Except.error e1 : Except ε α)), (t2, .error e2), (t3, .error e3),
        (t4, .error e4)]).failureCount = 4 ∧
    (cbRun svc o initialCircuit
      [(t1, (Except.error e1 : Except ε α)), (t2, .error e2), (t3, .error e3),
        (t4, .error e4), (t5, .error e5)]).state = .open_ ∧
    withCircuitBreaker svc o
        (cbRun svc o initialCircuit
          [(t1, (Except.error e1 : Except ε α)), (t2, .error e2), (t3, .error e3),
            (t4, .error e4), (t5, .error e5)]) t6 out6 =
      (cbRun svc o initialCircuit
        [(t1, (Except.error e1 : Except ε α)), (t2, .error e2), (t3, .error e3),
          (t4, .error e4), (t5, .error e5)],
        .breakerOpen (AppError.circuitBreakerOpen svc), false) ∧
    (AppError.circuitBreakerOpen svc).code = .CIRCUIT_BREAKER_OPEN := by
  have hc5 : cbRun svc o initialCircuit
      [(t1, (Except.error e1 : Except ε α)), (t2, .error e2), (t3, .error e3),
        (t4, .error e4), (t5, .error e5)] =
      { state := .open_, failureCount := 5, lastFailureTime := t5, halfOpenAttempts := 0 } := by
    simp [cbRun, withCircuitBreaker, cbEnter, cbEnterHalfOpenGate, cbSettle, transitionTo,
      initialCircuit, hth, htr1, htr2, htr3, htr4, htr5]
  refine ⟨?_, ?_, ?_, ?_, ?_, ?_, ?_, rfl⟩
  · simp [cbRun, withCircuitBreaker, cbEnter, cbEnterHalfOpenGate, cbSettle, transitionTo,
      initialCircuit, hth, htr1, htr2, htr3, htr4, htr5]
  · simp [cbRun, withCircuitBreaker, cbEnter, cbEnterHalfOpenGate, cbSettle, transitionTo,
      initialCircuit, hth, htr1, htr2, htr3, htr4, htr5]
  · simp [cbRun, withCircuitBreaker, cbEnter, cbEnterHalfOpenGate, cbSettle, transitionTo,
      initialCircuit, hth, htr1, htr2, htr3, htr4, htr5]
  · simp [cbRun, withCircuitBreaker, cbEnter, cbEnterHalfOpenGate, cbSettle, transitionTo,
      initialCircuit, hth, htr1, htr2, htr3, htr4, htr5]
  · simp [cbRun, withCircuitBreaker, cbEnter, cbEnterHalfOpenGate, cbSettle, transitionTo,
      initialCircuit, hth, htr1, htr2, htr3, htr4, htr5]
  · rw [hc5]
  · rw [hc5]
    have hno : ¬ (o.resetTimeoutMs ≤ t6 - t5) := not_le.mpr hlt
    simp [withCircuitBreaker, cbEnter, cbEnterHalfOpenGate, hno]

/-- Witness for `circuit_opens_at_threshold` with the default options
(threshold 5, reset timeout 30000) at concrete times 0–5. -/
theorem circuit_opens_at_threshold_witness :
    (cbRun "svc" ({ } : CBOptions Nat) initialCircuit
      [((0 : Int), (Except.error 0 : Except Nat Nat))]).state = .closed ∧
    (cbRun "svc" ({ } : CBOptions Nat) initialCircuit
      [((0 : Int), (Except.error 0 : Except Nat Nat)), (1, .error 0)]).state = .closed ∧
    (cbRun "svc" ({ } : CBOptions Nat) initialCircuit
      [((0 : Int), (Except.error 0 : Except Nat Nat)), (1, .error 0),
        (2, .error 0)]).state = .closed ∧
    (cbRun "svc" ({ } : CBOptions Nat) initialCircuit
      [((0 : Int), (Except.error 0 : Except Nat Nat)), (1, .error 0), (2, .error 0),
        (3, .error 0)]).state = .closed ∧
    (cbRun "svc" ({ } : CBOptions Nat) initialCircuit
      [((0 : Int), (Except.error 0 : Except Nat Nat)), (1, .error 0), (2, .error 0),
        (3, .error 0)]).failureCount = 4 ∧
    (cbRun "svc" ({ } : CBOptions Nat) initialCircuit
      [((0 : Int), (Except.error 0 : Except Nat Nat)), (1, .error 0), (2, .error 0),
        (3, .error 0), (4, .error 0)]).state = .open_ ∧
    withCircuitBreaker "svc" ({ } : CBOptions Nat)
        (cbRun "svc" ({ } : CBOptions Nat) initialCircuit
          [((0 : Int), (Except.error 0 : Except Nat Nat)), (1, .error 0), (2, .error 0),
            (3, .error 0), (4, .error 0)]) 5 (Except.ok 0) =
      (cbRun "svc" ({ } : CBOptions Nat) initialCircuit
        [((0 : Int), (Except.error 0 : Except Nat Nat)), (1, .error 0), (2, .error 0),
          (3, .error 0), (4, .error 0)],
        .breakerOpen (AppError.circuitBreakerOpen "svc"), false) ∧
    (AppError.circuitBreakerOpen "svc").code = .CIRCUIT_BREAKER_OPEN :=
  circuit_opens_at_threshold "svc" ({ } : CBOptions Nat) 0 0 0 0 0 0 1 2 3 4 5 (Except.ok 0)
    rfl rfl rfl rfl rfl rfl (by decide)

/-- C5: with `halfOpenMaxAttempts = 1`, an open circuit whose reset
timeout has elapsed lets a first call through (transitioning to
half-open with one trial issued), and a second call made while that
trial is outstanding rejects with the `CIRCUIT_BREAKER_OPEN` AppError
without invoking the wrapped function. -/
theorem halfOpen_single_trial {ε α : Type} (svc : String) (c0 : CircuitState) (o : CBOptions ε)
    (t1 t2 : Int) (out : Except ε α)
    (hstate : c0.state = .open_) (hmax : o.halfOpenMaxAttempts = 1)
    (helapsed : o.resetTimeoutMs ≤ t1 - c0.lastFailureTime) :
    (cbEnter o c0 t1).2 = .proceed ∧
    (cbEnter o c0 t1).1.state = .halfOpen ∧
    (cbEnter o c0 t1).1.halfOpenAttempts = 1 ∧
    withCircuitBreaker svc o (cbEnter o c0 t1).1 t2 out =
      ((cbEnter o c0 t1).1, .breakerOpen (AppError.circuitBreakerOpen svc), false) ∧
    (AppError.circuitBreakerOpen svc).code = .CIRCUIT_BREAKER_OPEN := by
  have h1 : cbEnter o c0 t1 =
      ({ c0 with state := .halfOpen, halfOpenAttempts := 1 }, .proceed) := by
    simp [cbEnter, cbEnterHalfOpenGate, transitionTo, hstate, hmax, helapsed]
  refine ⟨by rw [h1], by rw [h1], by rw [h1], ?_, rfl⟩
  rw [h1]
  simp [withCircuitBreaker, cbEnter, cbEnterHalfOpenGate, hmax]

/-- Witness for `halfOpen_single_trial` at a concrete open circuit with
the default options, times 30000 and 30001. -/
theorem halfOpen_single_trial_witness :
    (cbEnter ({ } : CBOptions Nat)
      { state := .open_, failureCount := 5, lastFailureTime := 0, halfOpenAttempts := 0 }
      30000).2 = .proceed ∧
    (cbEnter ({ } : CBOptions Nat)
      { state := .open_, failureCount := 5, lastFailureTime := 0, halfOpenAttempts := 0 }
      30000).1.state = .halfOpen ∧
    (cbEnter ({ } : CBOptions Nat)
      { state := .open_, failureCount := 5, lastFailureTime := 0, halfOpenAttempts := 0 }
      30000).1.halfOpenAttempts = 1 ∧
    withCircuitBreaker "svc" ({ } : CBOptions Nat)
        (cbEnter ({ } : CBOptions Nat)
          { state := .open_, failureCount := 5, lastFailureTime := 0, halfOpenAttempts := 0 }
          30000).1 30001 (Except.ok 0 : Except Nat Nat) =
      ((cbEnter ({ } : CBOptions Nat)
          { state := .open_, failureCount := 5, lastFailureTime := 0, halfOpenAttempts := 0 }
          30000).1,
        .breakerOpen (AppError.circuitBreakerOpen "svc"), false) ∧
    (AppError.circuitBreakerOpen "svc").code = .CIRCUIT_BREAKER_OPEN :=
  halfOpen_single_trial "svc"
    { state := .open_, failureCount := 5, lastFailureTime := 0, halfOpenAttempts := 0 }
    ({ } : CBOptions Nat) 30000 30001 (Except.ok 0) rfl rfl (by decide)

/-- C6 counterexample: a failing call with `shouldTrip` false made
against a half-open circuit does propagate the error, but the circuit
is not left as it was — the pre-invocation phase has already
incremented `halfOpenAttempts` from 0 to 1.  So the claim's frame
condition does not hold for every circuit state. -/
theorem nonTripping_halfOpen_counterexample :
    (withCircuitBreaker "svc" { shouldTrip := fun _ => false }
        { state := .halfOpen, failureCount := 0, lastFailureTime := 0, halfOpenAttempts := 0 }
        0 (Except.error 7 : Except Nat Nat)).2.1 = .err 7 ∧
    (withCircuitBreaker "svc" { shouldTrip := fun _ => false }
        { state := .halfOpen, failureCount := 0, lastFailureTime := 0, halfOpenAttempts := 0 }
        0 (Except.error 7 : Except Nat Nat)).1.halfOpenAttempts = 1 ∧
    ({ state := .halfOpen, failureCount := 0, lastFailureTime := 0,
       halfOpenAttempts := 0 } : CircuitState).halfOpenAttempts = 0 ∧
    (withCircuitBreaker "svc" { shouldTrip := fun _ => false }
        { state := .halfOpen, failureCount := 0, lastFailureTime := 0, halfOpenAttempts := 0 }
        0 (Except.error 7 : Except Nat Nat)).1 ≠
      { state := .halfOpen, failureCount := 0, lastFailureTime := 0, halfOpenAttempts := 0 } :=
  ⟨rfl, rfl, rfl, by decide⟩

/-- Helper for C6: from a closed circuit, any number of failing calls
whose errors all have `shouldTrip` false leaves the circuit exactly as
it was. -/
lemma cbRun_nonTripping {ε α : Type} (svc : String) (o : CBOptions ε) :
    ∀ (calls : List (Int × Except ε α)) (c : CircuitState), c.state = .closed →
      (∀ p ∈ calls, ∃ er, p.2 = Except.error er ∧ o.shouldTrip er = false) →
      cbRun svc o c calls = c := by
  intro calls
  induction calls with
  | nil => intro c _ _; rfl
  | cons hd tl ih =>
    intro c hclosed hcalls
    obtain ⟨er, her, htr⟩ := hcalls hd (by simp)
    have hstep : withCircuitBreaker svc o c hd.1 hd.2 = (c, .err er, true) := by
      rw [her]
      simp [withCircuitBreaker, cbEnter, cbEnterHalfOpenGate, cbSettle, hclosed, htr]
    have hfold : cbRun svc o c (hd :: tl) = cbRun svc o c tl := by
      simp [cbRun, hstep]
    rw [hfold]
    exact ih c hclosed (fun p hp => hcalls p (by simp [hp]))

/-- C6 (amended): the failure handler of `withCircuitBreaker` leaves
*every* circuit — closed, open, or half-open — untouched when
`shouldTrip(error)` is false (no counter update, no timestamp update,
no transition; the error is propagated); from a *closed* circuit the
whole call additionally leaves the full state unchanged, and
consequently any sequence of consecutive non-tripping failures — in
particular 10 of them — leaves the circuit closed with `failureCount`
0.  (For open/half-open circuits the pre-invocation phase may still
mutate state, as the counterexample shows.) -/
theorem nonTripping_frame {ε α : Type} (svc : String) (o : CBOptions ε) (c : CircuitState)
    (now : Int) (e : ε) (calls : List (Int × Except ε α))
    (htrip : o.shouldTrip e = false)
    (hcalls : ∀ p ∈ calls, ∃ er, p.2 = Except.error er ∧ o.shouldTrip er = false) :
    (∀ c' : CircuitState, cbSettle o c' now (Except.error e : Except ε α) = (c', .error e)) ∧
    (c.state = .closed →
      withCircuitBreaker svc o c now (Except.error e : Except ε α) = (c, .err e, true)) ∧
    (c.state = .closed → cbRun svc o c calls = c) := by
  refine ⟨fun c' => by simp [cbSettle, htrip],
    fun hclosed => by simp [withCircuitBreaker, cbEnter, cbEnterHalfOpenGate, cbSettle,
      hclosed, htrip],
    fun hclosed => cbRun_nonTripping svc o calls c hclosed hcalls⟩

/-- Witness for `nonTripping_frame`: the failure handler leaves
concrete half-open and open circuits untouched on a non-tripping
error, and 10 consecutive non-tripping failures from a fresh circuit
leave it exactly at `initialCircuit` (closed, failure count 0). -/
theorem nonTripping_frame_witness :
    cbSettle { shouldTrip := fun _ => false }
      { state := .halfOpen, failureCount := 0, lastFailureTime := 0, halfOpenAttempts := 1 } 0
      (Except.error 7 : Except Nat Nat) =
      ({ state := .halfOpen, failureCount := 0, lastFailureTime := 0, halfOpenAttempts := 1 },
        .error 7) ∧
    cbSettle { shouldTrip := fun _ => false }
      { state := .open_, failureCount := 5, lastFailureTime := 3, halfOpenAttempts := 0 } 0
      (Except.error 7 : Except Nat Nat) =
      ({ state := .open_, failureCount := 5, lastFailureTime := 3, halfOpenAttempts := 0 },
        .error 7) ∧
    withCircuitBreaker "svc" { shouldTrip := fun _ => false } initialCircuit 0
      (Except.error 7 : Except Nat Nat) = (initialCircuit, .err 7, true) ∧
    cbRun "svc" { shouldTrip := fun _ => false } initialCircuit
      (List.replicate 10 ((0 : Int), (Except.error 7 : Except Nat Nat))) = initialCircuit := by
  have h := nonTripping_frame "svc" { shouldTrip := fun _ => false } initialCircuit 0 7
    (List.replicate 10 ((0 : Int), (Except.error 7 : Except Nat Nat))) rfl
    (fun p hp => by
      have hp2 := List.eq_of_mem_replicate hp
      subst hp2
      exact ⟨7, rfl, rfl⟩)
  exact ⟨h.1
      { state := .halfOpen, failureCount := 0, lastFailureTime := 0, halfOpenAttempts := 1 },
    h.1 { state := .open_, failureCount := 5, lastFailureTime := 3, halfOpenAttempts := 0 },
    h.2.1 rfl, h.2.2 rfl⟩

/-- C3: on a rejected create with the epic field included, if the
combined rejection messages match `/string value expected/i` and the
epic value was not already sent as a string, the next attempt keeps the
same epic field id and sends the epic key as a plain string; otherwise,
on a (truthy) field-specific rejection of the current epic field id,
the next attempt moves to the next candidate, and once candidates are
exhausted the epic link is dropped from the payload entirely. -/
theorem epic_fallback_protocol (candidates stringSet : List String)
    (fieldErrors : List (String × String)) (generalMessages : List String)
    (st : EpicFallbackState) (fid epicKey : String)
    (hinc : st.includeEpic = true) (hfid : st.epicFieldId = some fid) :
    ((st.epicAsString = false ∧
        (combinedEpicMessages (fieldErrors.lookup fid) generalMessages).any
          matchesStringValueExpected = true) →
      (adjustEpicOnRejection candidates stringSet fieldErrors generalMessages st).1.epicFieldId =
        some fid ∧
      (adjustEpicOnRejection candidates stringSet fieldErrors generalMessages
        st).1.epicAsString = true ∧
      (adjustEpicOnRejection candidates stringSet fieldErrors generalMessages st).2 = true ∧
      epicFieldEntry
        (adjustEpicOnRejection candidates stringSet fieldErrors generalMessages st).1 epicKey =
        some (fid, .str epicKey)) ∧
    (¬ (st.epicAsString = false ∧
        (combinedEpicMessages (fieldErrors.lookup fid) generalMessages).any
          matchesStringValueExpected = true) →
      ∀ msg, fieldErrors.lookup fid = some msg → msg.isEmpty = false →
      (∀ hlt : st.epicFieldIndex + 1 < candidates.length,
        (adjustEpicOnRejection candidates stringSet fieldErrors generalMessages
          st).1.epicFieldId = some (candidates.get ⟨st.epicFieldIndex + 1, hlt⟩) ∧
        (adjustEpicOnRejection candidates stringSet fieldErrors generalMessages
          st).1.epicFieldIndex = st.epicFieldIndex + 1 ∧
        (adjustEpicOnRejection candidates stringSet fieldErrors generalMessages
          st).1.includeEpic = true ∧
        (adjustEpicOnRejection candidates stringSet fieldErrors generalMessages st).2 = true) ∧
      (¬ st.epicFieldIndex + 1 < candidates.length →
        (adjustEpicOnRejection candidates stringSet fieldErrors generalMessages
          st).1.includeEpic = false ∧
        (adjustEpicOnRejection candidates stringSet fieldErrors generalMessages st).2 = true ∧
        epicFieldEntry
          (adjustEpicOnRejection candidates stringSet fieldErrors generalMessages st).1
          epicKey = none)) := by
  constructor
  · rintro ⟨hstr, hany⟩
    have hreq : (!st.epicAsString &&
        (combinedEpicMessages (fieldErrors.lookup fid) generalMessages).any
          matchesStringValueExpected) = true := by
      simp [hstr, hany]
    refine ⟨?_, ?_, ?_, ?_⟩ <;>
      simp [adjustEpicOnRejection, epicFieldEntry, hinc, hfid, hreq]
  · intro hn msg hmsg hempty
    have hnp : ¬ (st.epicAsString = false ∧
        ∃ x ∈ combinedEpicMessages (some msg) generalMessages,
          matchesStringValueExpected x = true) := by
      rw [hmsg] at hn
      simpa [List.any_eq_true] using hn
    constructor
    · intro hlt
      refine ⟨?_, ?_, ?_, ?_⟩ <;>
        simp [adjustEpicOnRejection, hinc, hfid, hmsg, hempty, hnp, hlt]
    · intro hge
      refine ⟨?_, ?_, ?_⟩ <;>
        simp [adjustEpicOnRejection, epicFieldEntry, hinc, hfid, hmsg, hempty, hnp, hge]

/-- Witness for `epic_fallback_protocol`: the spec's scenario
`customfield_10008: string value expected` retries the same field with
a bare-string payload; a different rejection advances to the next
candidate; with a single candidate the epic link is dropped. -/
theorem epic_fallback_protocol_witness :
    (adjustEpicOnRejection ["customfield_10008", "customfield_10014"] []
      [("customfield_10008", "string value expected")] []
      { epicFieldIndex := 0, epicFieldId := some "customfield_10008",
        epicAsString := false, includeEpic := true }).1.epicFieldId =
      some "customfield_10008" ∧
    (adjustEpicOnRejection ["customfield_10008", "customfield_10014"] []
      [("customfield_10008", "string value expected")] []
      { epicFieldIndex := 0, epicFieldId := some "customfield_10008",
        epicAsString := false, includeEpic := true }).1.epicAsString = true ∧
    epicFieldEntry
      (adjustEpicOnRejection ["customfield_10008", "customfield_10014"] []
        [("customfield_10008", "string value expected")] []
        { epicFieldIndex := 0, epicFieldId := some "customfield_10008",
          epicAsString := false, includeEpic := true }).1 "EPIC-1" =
      some ("customfield_10008", .str "EPIC-1") ∧
    (adjustEpicOnRejection ["customfield_10008", "customfield_10014"] []
      [("customfield_10008", "bad value")] []
      { epicFieldIndex := 0, epicFieldId := some "customfield_10008",
        epicAsString := false, includeEpic := true }).1.epicFieldId =
      some "customfield_10014" ∧
    (adjustEpicOnRejection ["customfield_10008", "customfield_10014"] []
      [("customfield_10008", "bad value")] []
      { epicFieldIndex := 0, epicFieldId := some "customfield_10008",
        epicAsString := false, includeEpic := true }).1.epicFieldIndex = 1 ∧
    (adjustEpicOnRejection ["customfield_10008"] []
      [("customfield_10008", "bad value")] []
      { epicFieldIndex := 0, epicFieldId := some "customfield_10008",
        epicAsString := false, includeEpic := true }).1.includeEpic = false ∧
    epicFieldEntry
      (adjustEpicOnRejection ["customfield_10008"] []
        [("customfield_10008", "bad value")] []
        { epicFieldIndex := 0, epicFieldId := some "customfield_10008",
          epicAsString := false, includeEpic := true }).1 "EPIC-1" = none := by
  have hA := (epic_fallback_protocol ["customfield_10008", "customfield_10014"] []
    [("customfield_10008", "string value expected")] []
    { epicFieldIndex := 0, epicFieldId := some "customfield_10008",
      epicAsString := false, includeEpic := true } "customfield_10008" "EPIC-1"
    rfl rfl).1 ⟨rfl, by decide⟩
  have hB := (epic_fallback_protocol ["customfield_10008", "customfield_10014"] []
    [("customfield_10008", "bad value")] []
    { epicFieldIndex := 0, epicFieldId := some "customfield_10008",
      epicAsString := false, includeEpic := true } "customfield_10008" "EPIC-1"
    rfl rfl).2 (by decide) "bad value" (by decide) (by decide)
  have hC := (epic_fallback_protocol ["customfield_10008"] []
    [("customfield_10008", "bad value")] []
    { epicFieldIndex := 0, epicFieldId := some "customfield_10008",
      epicAsString := false, includeEpic := true } "customfield_10008" "EPIC-1"
    rfl rfl).2 (by decide) "bad value" (by decide) (by decide)
  exact ⟨hA.1, hA.2.1, hA.2.2.2, (hB.1 (by decide)).1, (hB.1 (by decide)).2.1,
    (hC.2 (by decide)).1, (hC.2 (by decide)).2.2⟩

/-- The candidate loop finds nothing in an empty catalog. -/
lemma candidateSearch_nil : ∀ cs : List String, candidateSearch [] cs = none := by
  intro cs
  induction cs with
  | nil => rfl
  | cons c rest ih => simp [candidateSearch, ih]

/-- The pattern loop finds nothing in an empty catalog. -/
lemma patternSearch_nil : ∀ ps : List (String → Bool), patternSearch [] ps = none := by
  intro ps
  induction ps with
  | nil => rfl
  | cons p rest ih => simp [patternSearch, ih]

/-- C4 counterexample: a fieldMapping entry whose value is the empty
string is an entry, yet `configuredId` is falsy, so resolution falls
through to discovery: the catalog *is* fetched and the returned id is
the catalog field's, not the configured one. -/
theorem resolveFieldId_empty_mapping_counterexample :
    resolveFieldId
      { fieldMapping := some "", candidates := ["Epic Link"], patterns := [],
        client := some (.ok [{ id := "customfield_2", name := "Epic Link" }]) } =
      (some "customfield_2", true) ∧
    ("" : String) ≠ "customfield_2" :=
  ⟨by decide, by decide⟩

/-- C4 (amended to non-empty mapping entries): a non-empty configured
mapping entry is returned as-is with no catalog fetch, whatever the
catalog holds; with no mapping configured, the result is exactly the
spec's resolution order — case-insensitive exact candidate match on
field name or id, then pattern match on field names, first match wins,
`undefined` when nothing matches. -/
theorem resolveFieldId_precedence (m : FieldServiceModel) (id : String) :
    (m.fieldMapping = some id → id.isEmpty = false → resolveFieldId m = (some id, false)) ∧
    (m.fieldMapping = none →
      (resolveFieldId m).1 = resolveFieldIdSpec (svcGetFields m).1 m.candidates m.patterns) := by
  constructor
  · intro hmap hne
    simp [resolveFieldId, hmap, hne]
  · intro hnone
    by_cases he : (svcGetFields m).1.isEmpty
    · have he' : (svcGetFields m).1 = [] := by simpa [List.isEmpty_iff] using he
      simp [resolveFieldId, hnone, discoverFieldId, he, resolveFieldIdSpec, he',
        candidateSearch_nil, patternSearch_nil]
    · simp only [resolveFieldId, hnone, discoverFieldId, he, resolveFieldIdSpec]
      cases hc : candidateSearch (svcGetFields m).1 m.candidates <;> simp [hc]

/-- Witness for `resolveFieldId_precedence`: a configured id wins with
no fetch even though the catalog holds a matching field with a
different id; without a mapping the result follows the spec's order. -/
theorem resolveFieldId_precedence_witness :
    resolveFieldId
      { fieldMapping := some "customfield_1", candidates := ["Epic Link"], patterns := [],
        client := some (.ok [{ id := "customfield_2", name := "Epic Link" }]) } =
      (some "customfield_1", false) ∧
    (resolveFieldId
      { fieldMapping := none, candidates := ["Epic Link"], patterns := [],
        client := some (.ok [{ id := "customfield_2", name := "Epic Link" }]) }).1 =
      resolveFieldIdSpec
        (svcGetFields
          { fieldMapping := none, candidates := ["Epic Link"], patterns := [],
            client := some (.ok [{ id := "customfield_2", name := "Epic Link" }]) }).1
        ["Epic Link"] [] := by
  constructor
  · exact (resolveFieldId_precedence
      { fieldMapping := some "customfield_1", candidates := ["Epic Link"], patterns := [],
        client := some (.ok [{ id := "customfield_2", name := "Epic Link" }]) }
      "customfield_1").1 rfl (by decide)
  · exact (resolveFieldId_precedence
      { fieldMapping := none, candidates := ["Epic Link"], patterns := [],
        client := some (.ok [{ id := "customfield_2", name := "Epic Link" }]) }
      "").2 rfl

end JC
